import Mathlib

/-!
Verification of the OSM map-generator script (OpenStreetMapPyVisualizer).

The script fetches OpenStreetMap data per feature category, converts the raw
elements into line/polygon features, clips them to a bounding box and renders
a styled map.  The development below is a shallow embedding of the functions
`_calculate_bbox`, `_get_overpass_query`, `fetch_osm_data`, `process_osm_data`
and `generate_map` of `script.py`.

Conventions of the embedding:
* Coordinates are rationals (idealised floating-point numbers).
* Python dict access `d[k]` on a possibly missing key is modelled in the
  `Except String` monad: a missing key is `Except.error`, mirroring a raised
  `KeyError`; `d.get(k, default)` is modelled with `Option.getD`.
* The two pyproj coordinate transformers and the float formatting used in
  f-strings are external collaborators; they enter as function parameters.
-/

namespace OSM

/-- A geographic point, as an (x, y) = (lon, lat) pair of rationals. -/
abbrev Pt := ℚ × ℚ

/-- A node of a way geometry, a dict that may or may not carry the
keys `lon` and `lat` (accessing a missing key raises). -/
structure GeoNode where
  lon? : Option ℚ
  lat? : Option ℚ
deriving DecidableEq, Repr

/-- A raw Overpass element, a dict with (possibly missing) keys
`type`, `geometry` and `tags`. -/
structure RawElement where
  type? : Option String
  geometry? : Option (List GeoNode)
  tags? : Option (List (String × String))
deriving DecidableEq, Repr

/-- The parsed JSON response of an Overpass request: a dict that may or
may not carry the key `elements`. -/
structure OsmData where
  elements? : Option (List RawElement)
deriving DecidableEq, Repr

/-- A geometric shape: an open polyline or a closed polygon ring. -/
inductive Geom where
  | line : List Pt → Geom
  | polygon : List Pt → Geom
deriving DecidableEq, Repr

/-- A converted feature: a shape together with its attribute (tag) mapping.
One row of the GeoDataFrame built by `process_osm_data`. -/
structure Feature where
  geom : Geom
  tags : List (String × String)
deriving DecidableEq, Repr

/-- The bounding box `(south, west, north, east)` returned by
`_calculate_bbox`. -/
structure BBox where
  south : ℚ
  west : ℚ
  north : ℚ
  east : ℚ
deriving DecidableEq, Repr

/-! ## `_calculate_bbox` (script.py lines 54-64)

The pyproj transformers `wgs84_to_lks92` and `lks92_to_wgs84` are external
library objects; they are passed in as functions on (x, y) pairs (the
transformers are built with `always_xy=True`, so both take and return
(lon/x, lat/y) order). -/

/-- Embedding of `_calculate_bbox`: project the center, offset by the radius
on both planar axes, project the corners `(xmin, ymin)` and `(xmax, ymax)`
back, and read off `(south, west, north, east)`. -/
def calculate_bbox (wgs84_to_lks92 lks92_to_wgs84 : Pt → Pt)
    (center_lon center_lat radius_meters : ℚ) : BBox :=
  let c := wgs84_to_lks92 (center_lon, center_lat)
  let xmin := c.1 - radius_meters
  let xmax := c.1 + radius_meters
  let ymin := c.2 - radius_meters
  let ymax := c.2 + radius_meters
  let corner0 := lks92_to_wgs84 (xmin, ymin)
  let corner2 := lks92_to_wgs84 (xmax, ymax)
  { south := corner0.2, west := corner0.1, north := corner2.2, east := corner2.1 }

/-! ## `_get_overpass_query` (script.py lines 93-107)

`bbox_str` interpolates the four bounds with a float-to-string conversion
`fmt` (Python f-string formatting, an external detail); the per-category
queries interpolate `bbox_str`.  The dict lookup `queries.get(feature_type, "")`
is embedded as an if-chain over the seven keys with default `""`. -/

/-- Embedding of the f-string on line 95 of the source:
the four bounds in the order south, west, north, east, comma separated. -/
def bbox_str (fmt : ℚ → String) (b : BBox) : String :=
  fmt b.south ++ "," ++ fmt b.west ++ "," ++ fmt b.north ++ "," ++ fmt b.east

/-- Embedding of `_get_overpass_query`. -/
def _get_overpass_query (fmt : ℚ → String) (b : BBox) (feature_type : String) : String :=
  let s := bbox_str fmt b
  if feature_type = "roads" then
    "[out:json];(way[\"highway\"](" ++ s ++ "););out geom;"
  else if feature_type = "buildings" then
    "[out:json];(way[\"building\"](" ++ s ++ "););out geom;"
  else if feature_type = "forests" then
    "[out:json];(way[\"landuse\"=\"forest\"](" ++ s ++ ");way[\"natural\"=\"wood\"](" ++ s ++ "););out geom;"
  else if feature_type = "water" then
    "[out:json];(way[\"natural\"=\"water\"](" ++ s ++ ");way[\"waterway\"](" ++ s ++ ");relation[\"natural\"=\"water\"](" ++ s ++ ");relation[\"waterway\"](" ++ s ++ "););out geom;"
  else if feature_type = "rivers" then
    "[out:json];(way[\"waterway\"=\"river\"](" ++ s ++ "););out geom;"
  else if feature_type = "lakes" then
    "[out:json];(way[\"natural\"=\"water\"](" ++ s ++ ");relation[\"natural\"=\"water\"](" ++ s ++ "););out geom;"
  else if feature_type = "channels" then
    "[out:json];(way[\"waterway\"=\"canal\"](" ++ s ++ ");way[\"waterway\"=\"ditch\"](" ++ s ++ ");way[\"waterway\"=\"stream\"](" ++ s ++ "););out geom;"
  else ""

/-! ## `fetch_osm_data` (script.py lines 66-90)

The HTTP service is an external collaborator; it enters as an oracle
`svc : Nat → Option OsmData` giving, for each attempt index, either the
parsed response (`some`) or a caught failure — a `RequestException` or a
`JSONDecodeError` (`none`).  The embedding additionally returns the number
of attempts that were made, to state the retry-budget claims. -/

/-- The retry loop `for attempt in range(3)` of `fetch_osm_data`:
`fetch_loop svc attempt remaining` runs attempts `attempt, attempt+1, ...`
while `remaining` loop iterations are left, returning the first successful
response (and the total number of attempts made so far), or `none` after the
budget is exhausted. -/
def fetch_loop (svc : Nat → Option OsmData) : Nat → Nat → Option OsmData × Nat
  | attempt, 0 => (none, attempt)
  | attempt, remaining + 1 =>
    match svc attempt with
    | some data => (some data, attempt + 1)
    | none => fetch_loop svc (attempt + 1) remaining

/-- Embedding of `fetch_osm_data`: an empty query (`if not query`) returns
`None` immediately with no attempt made; otherwise up to 3 attempts are made. -/
def fetch_osm_data (fmt : ℚ → String) (b : BBox) (svc : Nat → Option OsmData)
    (feature_type : String) : Option OsmData × Nat :=
  if _get_overpass_query fmt b feature_type = "" then (none, 0)
  else fetch_loop svc 0 3

/-! ## `process_osm_data`, converter stage (script.py lines 110-129) -/

/-- Embedding of line 118: `geometry_type` is the string `polygon` when the
feature type is buildings, forests or lakes, else `line`. -/
def geometry_type_for (feature_type : String) : String :=
  if feature_type = "buildings" ∨ feature_type = "forests" ∨ feature_type = "lakes"
  then "polygon" else "line"

/-- Reading one node of a way geometry, the pair of its lon and lat values;
a missing key raises a `KeyError`. -/
def nodeCoord (n : GeoNode) : Except String Pt :=
  match n.lon? with
  | none => .error "KeyError: lon"
  | some lon =>
    match n.lat? with
    | none => .error "KeyError: lat"
    | some lat => .ok (lon, lat)

/-- The list comprehension
`[(node["lon"], node["lat"]) for node in element["geometry"]]` (line 122):
the coordinates of all nodes in order; the first node with a missing key
raises. -/
def mapNodes : List GeoNode → Except String (List Pt)
  | [] => .ok []
  | n :: rest =>
    match nodeCoord n with
    | .error msg => .error msg
    | .ok p =>
      match mapNodes rest with
      | .error msg => .error msg
      | .ok ps => .ok (p :: ps)

/-- The shapely `Polygon` constructor closes the ring: if the last coordinate
differs from the first, the first is appended (shapely exterior-ring
semantics, as the spec describes: duplicate the first point as the last if
not already closed). -/
def closeRing (coords : List Pt) : List Pt :=
  match coords.head? with
  | none => coords
  | some p => if coords.getLast? = some p then coords else coords ++ [p]

/-- One iteration of the element loop of `process_osm_data` (lines 120-127):
`element["type"]` raises on a missing key; `"geometry" in element` guards the
geometry access; fewer than 2 coordinates is skipped (`continue`); a polygon
is built when the polygon kind is requested and at least 3 coordinates are
present, else a line; `element.get("tags", default)` defaults to the empty map.
Returns `.ok none` when the element contributes no feature. -/
def processElement (geometry_type : String) (e : RawElement) :
    Except String (Option Feature) :=
  match e.type? with
  | none => .error "KeyError: type"
  | some t =>
    if t = "way" then
      match e.geometry? with
      | none => .ok none
      | some g =>
        match mapNodes g with
        | .error msg => .error msg
        | .ok coords =>
          if coords.length < 2 then .ok none
          else
            let geo :=
              if geometry_type = "polygon" ∧ 3 ≤ coords.length
              then Geom.polygon (closeRing coords)
              else Geom.line coords
            .ok (some { geom := geo, tags := e.tags?.getD [] })
    else .ok none

/-- The element loop of `process_osm_data`: features are accumulated in
order, skipped elements contribute nothing, and a raised `KeyError`
propagates (aborting the whole call, as an uncaught Python exception does). -/
def convertElements (geometry_type : String) : List RawElement → Except String (List Feature)
  | [] => .ok []
  | e :: rest =>
    match processElement geometry_type e with
    | .error msg => .error msg
    | .ok none => convertElements geometry_type rest
    | .ok (some f) =>
      match convertElements geometry_type rest with
      | .error msg => .error msg
      | .ok fs => .ok (f :: fs)

/-- Embedding of `process_osm_data` up to the construction of the
GeoDataFrame `gdf` (lines 110-129): `if not data or "elements" not in data`
returns the empty collection; otherwise the elements are converted.
(The subsequent clipping step, line 133, is modelled separately below,
since it is delegated to the external geometry library.) -/
def process_osm_data (feature_type : String) (data : Option OsmData) :
    Except String (List Feature) :=
  match data with
  | none => .ok []
  | some d =>
    match d.elements? with
    | none => .ok []
    | some els => convertElements (geometry_type_for feature_type) els

/-! ## Clipping stage of `process_osm_data` (script.py lines 131-141)

`gdf.clip(bbox_polygon)` is a call into the external geopandas/shapely
libraries, which the spec places out of scope and describes only by its
semantics.  Modelled from the spec: the clip intersects every geometry
(viewed as a point set) with the rectangle
`box(self.bbox[1], self.bbox[0], self.bbox[3], self.bbox[2])`
(west, south, east, north), keeps the row attributes unchanged, and drops
rows whose geometry falls entirely outside the rectangle. -/

/-- A feature at the clipping stage: its shape viewed extensionally as the
set of points it occupies, plus its attribute mapping. -/
structure SFeature where
  geom : Set Pt
  attrs : List (String × String)

/-- The rectangle `box(west, south, east, north)` built from the bounding
box on line 132, as a point set. -/
def boxSet (b : BBox) : Set Pt :=
  {p : Pt | b.west ≤ p.1 ∧ p.1 ≤ b.east ∧ b.south ≤ p.2 ∧ p.2 ≤ b.north}

/-- Clipping a single row: the geometry is intersected with the rectangle,
the attributes are carried over unchanged. -/
def clipFeature (b : BBox) (f : SFeature) : SFeature :=
  { geom := f.geom ∩ boxSet b, attrs := f.attrs }

/-- Modelled from the spec: `output` is a possible result of
`gdf.clip(bbox_polygon)` on `input` — a sublist of the row-wise clipped
input that retains every row whose clipped geometry is nonempty (rows
clipped to the empty set are the only ones that may be dropped). -/
def ClipsTo (b : BBox) (input output : List SFeature) : Prop :=
  List.Sublist output (input.map (clipFeature b)) ∧
    ∀ f ∈ input.map (clipFeature b), f.geom.Nonempty → f ∈ output

/-! ## `generate_map` (script.py lines 145-194)

The renderer issues a sequence of matplotlib calls; the embedding records
that sequence as a trace of `RenderOp` values.  `setXlim`/`setYlim` model
`ax.set_xlim`/`ax.set_ylim` (available matplotlib calls that would set the
visible extent); the script is embedded faithfully, so the trace it emits
contains whichever of these calls it actually makes. -/

/-- One matplotlib call made by `generate_map` on the axes/figure. -/
inductive RenderOp where
  | setAspect : String → RenderOp
  | setXlim : ℚ → ℚ → RenderOp
  | setYlim : ℚ → ℚ → RenderOp
  | plot : String → RenderOp
  | setTitle : String → RenderOp
  | setXlabel : String → RenderOp
  | setYlabel : String → RenderOp
  | savefig : String → RenderOp
  | showFig : RenderOp
deriving DecidableEq, Repr

/-- Embedding of the pandas unique call: the distinct values in first-occurrence
order (rows without the key contribute the missing value, whose subset is
empty and is skipped by the `continue` on line 175, so only present values
yield a plot call). -/
def uniqueVals : List String → List String
  | [] => []
  | x :: xs => x :: uniqueVals (xs.filter (fun y => y ≠ x))
termination_by l => l.length
decreasing_by
  simp only [List.length_cons]
  exact Nat.lt_succ_of_le (List.length_filter_le _ _)

/-- The road-type values of the rows: `gdf["highway"]` restricted to rows
that carry the key. -/
def roadTypes (rows : List Feature) : List String :=
  uniqueVals (rows.filterMap (fun f => f.tags.lookup "highway"))

/-- The plot calls of the special roads branch (lines 168-181): if some row
carries a `highway` column, one plot call per distinct road type; otherwise
the single fallback plot call labelled `Roads`. -/
def plotRoadOps (rows : List Feature) : List RenderOp :=
  if rows.any (fun f => (f.tags.lookup "highway").isSome) then
    (roadTypes rows).map (fun rt => RenderOp.plot (rt ++ " road"))
  else [RenderOp.plot "Roads"]

/-- The fixed back-to-front plot order of line 158. -/
def plot_order : List String :=
  ["water", "lakes", "forests", "rivers", "channels", "roads", "buildings"]

/-- The plot calls of the layer loop (lines 160-187): empty layers are
skipped, the roads layer takes the special branch, every other layer is one
plot call with its category style. -/
def plotOps (gdfs : String → List Feature) : List RenderOp :=
  plot_order.flatMap (fun ft =>
    let rows := gdfs ft
    if rows.isEmpty then []
    else if ft = "roads" then plotRoadOps rows
    else [RenderOp.plot ft])

/-- The trace of matplotlib calls made by `generate_map` (lines 154-194)
given the per-category clipped collections `gdfs`: set the aspect, plot the
layers in order, set title and axis labels, save the figure, show it. -/
def generate_map_ops (gdfs : String → List Feature) : List RenderOp :=
  RenderOp.setAspect "equal" :: plotOps gdfs ++
    [RenderOp.setTitle "OSM Map with Roads, Water, and Buildings",
     RenderOp.setXlabel "Longitude",
     RenderOp.setYlabel "Latitude",
     RenderOp.savefig "output/osm_map.jpg",
     RenderOp.showFig]

/-- Whether a trace contains a call that sets the visible plot extent to the
bounding box (an x-limit call with the west/east bounds or a y-limit call
with the south/north bounds). -/
def setsExtentToBBox (b : BBox) (ops : List RenderOp) : Bool :=
  ops.any (fun op =>
    match op with
    | RenderOp.setXlim lo hi => lo == b.west && hi == b.east
    | RenderOp.setYlim lo hi => lo == b.south && hi == b.north
    | _ => false)

/-! ## Helper lemmas -/

/-- A string starting with a nonempty literal is nonempty. -/
theorem append3_ne_empty (a s c : String) (ha : a.length ≠ 0) : a ++ s ++ c ≠ "" := by
  intro h
  have h2 := congrArg String.length h
  have h0 : ("" : String).length = 0 := rfl
  simp only [String.length_append, h0] at h2
  omega

/-- The roads query is never the empty string. -/
theorem roads_query_ne_empty (fmt : ℚ → String) (b : BBox) :
    _get_overpass_query fmt b "roads" ≠ "" := by
  have he : _get_overpass_query fmt b "roads" =
      "[out:json];(way[\"highway\"](" ++ bbox_str fmt b ++ "););out geom;" := by
    simp [_get_overpass_query]
  rw [he]
  exact append3_ne_empty _ _ _ (by decide)

/-- The retry loop makes at most `attempt + remaining` total attempts. -/
theorem fetch_loop_attempts_le (svc : Nat → Option OsmData) (attempt remaining : Nat) :
    (fetch_loop svc attempt remaining).2 ≤ attempt + remaining := by
  induction remaining generalizing attempt with
  | zero => simp [fetch_loop]
  | succ n ih =>
    cases h : svc attempt with
    | some d => simp [fetch_loop, h]
    | none =>
      have hrec := ih (attempt + 1)
      simp only [fetch_loop, h]
      omega

/-! ## Claim theorems -/

/-- Claim C5: for any center point and positive radius, the bounding box
computed by `_calculate_bbox` satisfies `south < north` and `west < east`,
and the center point lies within it.  The two pyproj transformers are
external; the hypotheses record that the inverse projection is strictly
monotone componentwise and inverts the forward projection at the center
(true of the LKS-92 transverse-Mercator pair away from extreme latitudes,
which the spec declares out of scope). -/
theorem calculate_bbox_sound (fwd inv : Pt → Pt) (lon lat r : ℚ)
    (hr : 0 < r)
    (hinv : inv (fwd (lon, lat)) = (lon, lat))
    (hmonoX : ∀ x1 y1 x2 y2 : ℚ, x1 < x2 → y1 ≤ y2 → (inv (x1, y1)).1 < (inv (x2, y2)).1)
    (hmonoY : ∀ x1 y1 x2 y2 : ℚ, x1 ≤ x2 → y1 < y2 → (inv (x1, y1)).2 < (inv (x2, y2)).2) :
    (calculate_bbox fwd inv lon lat r).south < (calculate_bbox fwd inv lon lat r).north ∧
    (calculate_bbox fwd inv lon lat r).west < (calculate_bbox fwd inv lon lat r).east ∧
    (calculate_bbox fwd inv lon lat r).south ≤ lat ∧
    lat ≤ (calculate_bbox fwd inv lon lat r).north ∧
    (calculate_bbox fwd inv lon lat r).west ≤ lon ∧
    lon ≤ (calculate_bbox fwd inv lon lat r).east := by
  have hc : inv ((fwd (lon, lat)).1, (fwd (lon, lat)).2) = (lon, lat) := by
    rw [Prod.mk.eta]; exact hinv
  simp only [calculate_bbox]
  refine ⟨?_, ?_, ?_, ?_, ?_, ?_⟩
  · exact hmonoY _ _ _ _ (by linarith) (by linarith)
  · exact hmonoX _ _ _ _ (by linarith) (by linarith)
  · have h := hmonoY ((fwd (lon, lat)).1 - r) ((fwd (lon, lat)).2 - r)
      (fwd (lon, lat)).1 (fwd (lon, lat)).2 (by linarith) (by linarith)
    rw [hc] at h
    exact le_of_lt h
  · have h := hmonoY (fwd (lon, lat)).1 (fwd (lon, lat)).2
      ((fwd (lon, lat)).1 + r) ((fwd (lon, lat)).2 + r) (by linarith) (by linarith)
    rw [hc] at h
    exact le_of_lt h
  · have h := hmonoX ((fwd (lon, lat)).1 - r) ((fwd (lon, lat)).2 - r)
      (fwd (lon, lat)).1 (fwd (lon, lat)).2 (by linarith) (by linarith)
    rw [hc] at h
    exact le_of_lt h
  · have h := hmonoX (fwd (lon, lat)).1 (fwd (lon, lat)).2
      ((fwd (lon, lat)).1 + r) ((fwd (lon, lat)).2 + r) (by linarith) (by linarith)
    rw [hc] at h
    exact le_of_lt h

/-- Witness for C5 at the identity transform pair, center (0, 0), radius 1. -/
theorem calculate_bbox_sound_witness :
    (calculate_bbox id id 0 0 1).south < (calculate_bbox id id 0 0 1).north ∧
    (calculate_bbox id id 0 0 1).west < (calculate_bbox id id 0 0 1).east ∧
    (calculate_bbox id id 0 0 1).south ≤ 0 ∧
    (0 : ℚ) ≤ (calculate_bbox id id 0 0 1).north ∧
    (calculate_bbox id id 0 0 1).west ≤ 0 ∧
    (0 : ℚ) ≤ (calculate_bbox id id 0 0 1).east :=
  calculate_bbox_sound id id 0 0 1 (by norm_num) rfl
    (fun _ _ _ _ h _ => h) (fun _ _ _ _ _ h => h)

/-- Claim C2: `fetch_osm_data` makes no more than 3 total attempts: with a
service failing twice then succeeding it returns the parsed response after
exactly 3 attempts; with a service failing always it returns `None` after
exactly 3 attempts; and in general at most 3 attempts are made.  Failures
(`RequestException` or `JSONDecodeError`) are caught inside the loop, so in
the embedding they are values, never escaping errors. -/
theorem fetch_osm_data_retry_budget :
    (∀ (fmt : ℚ → String) (b : BBox) (svc : Nat → Option OsmData) (d : OsmData),
      svc 0 = none → svc 1 = none → svc 2 = some d →
      fetch_osm_data fmt b svc "roads" = (some d, 3)) ∧
    (∀ (fmt : ℚ → String) (b : BBox) (svc : Nat → Option OsmData),
      (∀ n, svc n = none) → fetch_osm_data fmt b svc "roads" = (none, 3)) ∧
    (∀ (fmt : ℚ → String) (b : BBox) (svc : Nat → Option OsmData) (ft : String),
      (fetch_osm_data fmt b svc ft).2 ≤ 3) := by
  refine ⟨?_, ?_, ?_⟩
  · intro fmt b svc d h0 h1 h2
    rw [fetch_osm_data, if_neg (roads_query_ne_empty fmt b)]
    simp [fetch_loop, h0, h1, h2]
  · intro fmt b svc h
    rw [fetch_osm_data, if_neg (roads_query_ne_empty fmt b)]
    simp [fetch_loop, h]
  · intro fmt b svc ft
    rw [fetch_osm_data]
    by_cases hq : _get_overpass_query fmt b ft = ""
    · simp [hq]
    · rw [if_neg hq]
      exact fetch_loop_attempts_le svc 0 3

/-- Witness for C2: a service failing on attempts 0 and 1 and succeeding on
attempt 2 yields the successful response with 3 attempts made. -/
theorem fetch_osm_data_retry_budget_witness :
    fetch_osm_data (fun _ => "1") ⟨0, 0, 1, 1⟩
      (fun n => if n = 2 then some ⟨some []⟩ else none) "roads" = (some ⟨some []⟩, 3) :=
  fetch_osm_data_retry_budget.1 (fun _ => "1") ⟨0, 0, 1, 1⟩
    (fun n => if n = 2 then some ⟨some []⟩ else none) ⟨some []⟩ rfl rfl rfl

/-- Claim C6: an unknown category name yields the empty query, the fetcher
returns `None` without any attempt, and the converter downstream turns that
absent result into the empty feature collection — the run does not fail. -/
theorem unknown_category_noop (fmt : ℚ → String) (b : BBox)
    (svc : Nat → Option OsmData) (ft : String)
    (h1 : ft ≠ "roads") (h2 : ft ≠ "buildings") (h3 : ft ≠ "forests")
    (h4 : ft ≠ "water") (h5 : ft ≠ "rivers") (h6 : ft ≠ "lakes") (h7 : ft ≠ "channels") :
    _get_overpass_query fmt b ft = "" ∧
    fetch_osm_data fmt b svc ft = (none, 0) ∧
    process_osm_data ft (fetch_osm_data fmt b svc ft).1 = Except.ok [] := by
  have hq : _get_overpass_query fmt b ft = "" := by
    simp [_get_overpass_query, h1, h2, h3, h4, h5, h6, h7]
  have hf : fetch_osm_data fmt b svc ft = (none, 0) := by
    simp [fetch_osm_data, hq]
  exact ⟨hq, hf, by rw [hf]; rfl⟩

/-- Witness for C6 at the category name `parks`, which is not in the query
table. -/
theorem unknown_category_noop_witness :
    _get_overpass_query (fun _ => "1") ⟨0, 0, 1, 1⟩ "parks" = "" ∧
    fetch_osm_data (fun _ => "1") ⟨0, 0, 1, 1⟩ (fun _ => none) "parks" = (none, 0) ∧
    process_osm_data "parks"
      (fetch_osm_data (fun _ => "1") ⟨0, 0, 1, 1⟩ (fun _ => none) "parks").1 = Except.ok [] :=
  unknown_category_noop (fun _ => "1") ⟨0, 0, 1, 1⟩ (fun _ => none) "parks"
    (by decide) (by decide) (by decide) (by decide) (by decide) (by decide) (by decide)

/-- Claim C7: an absent fetch result and a response without an `elements`
key both produce the empty feature collection, not an error; and clipping an
empty collection leaves it empty, so the whole category degrades to "no
features". -/
theorem missing_elements_empty_result :
    (∀ ft : String, process_osm_data ft none = Except.ok []) ∧
    (∀ (ft : String) (d : OsmData), d.elements? = none →
      process_osm_data ft (some d) = Except.ok []) ∧
    (∀ (b : BBox) (out : List SFeature), ClipsTo b [] out → out = []) := by
  refine ⟨fun ft => rfl, fun ft d hd => ?_, fun b out hc => ?_⟩
  · simp [process_osm_data, hd]
  · have h := hc.1
    simp only [List.map_nil] at h
    exact List.sublist_nil.mp h

/-- Witness for C7: a response record with no `elements` key. -/
theorem missing_elements_empty_result_witness :
    process_osm_data "roads" (some ⟨none⟩) = Except.ok [] :=
  missing_elements_empty_result.2.1 "roads" ⟨none⟩ rfl

/-- An element whose dict accesses cannot raise: it has a `type` key, and
every node of its geometry (when present) has `lon` and `lat` keys. -/
def WellKeyed (e : RawElement) : Prop :=
  e.type?.isSome ∧ ∀ n ∈ e.geometry?.getD [], n.lon?.isSome ∧ n.lat?.isSome

instance : DecidablePred WellKeyed := fun e => by
  unfold WellKeyed; infer_instance

/-- Reading the node coordinates succeeds when every node has its keys. -/
theorem mapNodes_ok (g : List GeoNode)
    (h : ∀ n ∈ g, n.lon?.isSome ∧ n.lat?.isSome) :
    ∃ coords, mapNodes g = Except.ok coords ∧ coords.length = g.length := by
  induction g with
  | nil => exact ⟨[], rfl, rfl⟩
  | cons n rest ih =>
    obtain ⟨lon, hlon⟩ := Option.isSome_iff_exists.mp (h n (by simp)).1
    obtain ⟨lat, hlat⟩ := Option.isSome_iff_exists.mp (h n (by simp)).2
    obtain ⟨coords, hc, hlen⟩ := ih (fun x hx => h x (by simp [hx]))
    exact ⟨(lon, lat) :: coords, by simp [mapNodes, nodeCoord, hlon, hlat, hc],
      by simp [hlen]⟩

/-- Lemma: `processElement` returns (rather than raises) on any well-keyed element. -/
theorem processElement_ok (gt : String) (e : RawElement) (h : WellKeyed e) :
    ∃ r, processElement gt e = Except.ok r := by
  obtain ⟨t, ht⟩ := Option.isSome_iff_exists.mp h.1
  by_cases hw : t = "way"
  · subst hw
    cases hg : e.geometry? with
    | none => exact ⟨none, by simp [processElement, ht, hg]⟩
    | some g =>
      obtain ⟨coords, hc, hlen⟩ := mapNodes_ok g (by
        intro n hn
        exact h.2 n (by simp [hg, hn]))
      by_cases hsmall : coords.length < 2
      · exact ⟨none, by simp [processElement, ht, hg, hc, if_pos hsmall]⟩
      · by_cases hpoly : gt = "polygon" ∧ 3 ≤ coords.length
        · exact ⟨some ⟨Geom.polygon (closeRing coords), e.tags?.getD []⟩,
            by simp [processElement, ht, hg, hc, if_neg hsmall, if_pos hpoly]⟩
        · exact ⟨some ⟨Geom.line coords, e.tags?.getD []⟩,
            by simp [processElement, ht, hg, hc, if_neg hsmall, if_neg hpoly]⟩
  · exact ⟨none, by simp [processElement, ht, if_neg hw]⟩

/-- The element loop returns on a list of well-keyed elements. -/
theorem convertElements_ok (gt : String) (els : List RawElement)
    (h : ∀ e ∈ els, WellKeyed e) :
    ∃ fs, convertElements gt els = Except.ok fs := by
  induction els with
  | nil => exact ⟨[], rfl⟩
  | cons e rest ih =>
    obtain ⟨r, hr⟩ := processElement_ok gt e (h e (by simp))
    obtain ⟨fs, hfs⟩ := ih (fun x hx => h x (by simp [hx]))
    cases r with
    | none => exact ⟨fs, by simp [convertElements, hr, hfs]⟩
    | some f => exact ⟨f :: fs, by simp [convertElements, hr, hfs]⟩

/-- Counterexample to claim C1: `process_osm_data` is not total on malformed
elements — an element without a `type` key makes `element["type"]` raise a
`KeyError` instead of being silently skipped. -/
theorem process_osm_data_raises_on_missing_type :
    process_osm_data "roads"
      (some { elements? := some [{ type? := none, geometry? := none, tags? := none }] }) =
      Except.error "KeyError: type" := rfl

/-- Claim C1 (amended): `process_osm_data` never fails on elements whose
dict accesses are defined — having a `type` key, and `lon`/`lat` keys on
every geometry node.  Such elements that are malformed or under-specified
(a missing geometry field, or fewer than 2 points) are silently skipped,
producing no feature; but an element missing its `type` key (or a geometry
node missing `lon`/`lat`) raises a `KeyError`. -/
theorem process_osm_data_skips_malformed :
    (∀ (ft : String) (els : List RawElement),
      (∀ e ∈ els, WellKeyed e) →
      ∃ fs, process_osm_data ft (some { elements? := some els }) = Except.ok fs) ∧
    (∀ (gt : String) (e : RawElement), e.type? = some "way" → e.geometry? = none →
      processElement gt e = Except.ok none) ∧
    (∀ (gt : String) (e : RawElement) (g : List GeoNode) (coords : List Pt),
      e.type? = some "way" → e.geometry? = some g → mapNodes g = Except.ok coords →
      coords.length < 2 → processElement gt e = Except.ok none) ∧
    (∀ (gt : String) (e : RawElement) (rest : List RawElement),
      processElement gt e = Except.ok none →
      convertElements gt (e :: rest) = convertElements gt rest) := by
  refine ⟨?_, ?_, ?_, ?_⟩
  · intro ft els h
    exact convertElements_ok (geometry_type_for ft) els h
  · intro gt e ht hg
    simp [processElement, ht, hg]
  · intro gt e g coords ht hg hm hsmall
    simp [processElement, ht, hg, hm, if_pos hsmall]
  · intro gt e rest hok
    simp [convertElements, hok]

/-- A way element with a single geometry point (under-specified, but all
its keys readable). -/
def onePointWay : RawElement :=
  { type? := some "way", geometry? := some [{ lon? := some 1, lat? := some 2 }], tags? := none }

/-- Witness for C1 (amended): a record with one under-specified way (a
single point) is processed without error. -/
theorem process_osm_data_skips_malformed_witness :
    ∃ fs, process_osm_data "roads" (some { elements? := some [onePointWay] }) = Except.ok fs :=
  process_osm_data_skips_malformed.1 "roads" [onePointWay] (by decide)

/-- Lemma: `closeRing` yields a ring whose first and last points both equal the
first input point. -/
theorem closeRing_closed (p : Pt) (rest : List Pt) :
    (closeRing (p :: rest)).head? = some p ∧ (closeRing (p :: rest)).getLast? = some p := by
  simp only [closeRing, List.head?_cons]
  by_cases hl : (p :: rest).getLast? = some p
  · simp [hl]
  · have h2 : ((p :: rest) ++ [p]).getLast? = some p := by
      rw [List.getLast?_append_of_ne_nil _ (by simp)]; rfl
    simp only [List.cons_append] at h2
    simp [hl, h2]

/-- Claim C4: for a way element with a geometry field (and readable nodes):
fewer than 2 points produce no feature; with polygon kind and at least 3
points, one polygon is produced whose ring starts and ends at the same
point (the first input point); otherwise a line on exactly the input points
is produced; in both cases the tag mapping is carried through unmodified
(the tags dict access with empty default). -/
theorem way_conversion_cases (gt : String) (e : RawElement) (g : List GeoNode)
    (coords : List Pt) (ht : e.type? = some "way") (hg : e.geometry? = some g)
    (hm : mapNodes g = Except.ok coords) :
    (coords.length < 2 → processElement gt e = Except.ok none) ∧
    (gt = "polygon" → 3 ≤ coords.length →
      ∃ ring, processElement gt e =
          Except.ok (some { geom := Geom.polygon ring, tags := e.tags?.getD [] }) ∧
        ring.head? = coords.head? ∧ ring.getLast? = coords.head?) ∧
    (2 ≤ coords.length → ¬(gt = "polygon" ∧ 3 ≤ coords.length) →
      processElement gt e = Except.ok (some { geom := Geom.line coords, tags := e.tags?.getD [] })) := by
  refine ⟨?_, ?_, ?_⟩
  · intro hsmall
    simp [processElement, ht, hg, hm, if_pos hsmall]
  · intro hgt hlen
    refine ⟨closeRing coords, ?_, ?_⟩
    · have hsmall : ¬ coords.length < 2 := by omega
      simp [processElement, ht, hg, hm, if_neg hsmall, if_pos (And.intro hgt hlen)]
    · match coords, hlen with
      | p :: rest, _ =>
        have h := closeRing_closed p rest
        simp [h.1, h.2]
  · intro hlen hnot
    have hsmall : ¬ coords.length < 2 := by omega
    simp [processElement, ht, hg, hm, if_neg hsmall, if_neg hnot]

/-- Witness for C4: a way with 3 distinct points and polygon kind produces a
polygon closed at its first point. -/
theorem way_conversion_cases_witness :
    ∃ ring, processElement "polygon"
        { type? := some "way",
          geometry? := some
            [{ lon? := some 0, lat? := some 0 },
             { lon? := some 1, lat? := some 0 },
             { lon? := some 0, lat? := some 1 }],
          tags? := some [("building", "yes")] } =
        Except.ok (some { geom := Geom.polygon ring, tags := [("building", "yes")] }) ∧
      ring.head? = some ((0 : ℚ), (0 : ℚ)) ∧ ring.getLast? = some ((0 : ℚ), (0 : ℚ)) :=
  (way_conversion_cases "polygon"
    { type? := some "way",
      geometry? := some
        [{ lon? := some 0, lat? := some 0 },
         { lon? := some 1, lat? := some 0 },
         { lon? := some 0, lat? := some 1 }],
      tags? := some [("building", "yes")] }
    [{ lon? := some 0, lat? := some 0 },
     { lon? := some 1, lat? := some 0 },
     { lon? := some 0, lat? := some 1 }]
    [(0, 0), (1, 0), (0, 1)] rfl rfl rfl).2.1 rfl (by decide)

/-- Claim C3: every geometry in the clipped output is contained in the
bounding-box rectangle, and the attribute mapping of every retained or
truncated row is the attribute mapping of its source row, unchanged. -/
theorem clip_within_bbox (b : BBox) (input output : List SFeature)
    (hc : ClipsTo b input output) :
    ∀ f ∈ output, f.geom ⊆ boxSet b ∧
      ∃ f₀ ∈ input, f.attrs = f₀.attrs ∧ f.geom = f₀.geom ∩ boxSet b := by
  intro f hf
  have hmem : f ∈ input.map (clipFeature b) := hc.1.mem hf
  obtain ⟨f₀, hf₀, rfl⟩ := List.mem_map.mp hmem
  exact ⟨Set.inter_subset_right, ⟨f₀, hf₀, rfl, rfl⟩⟩

/-- Witness for C3: clipping a one-row collection whose geometry is the
whole plane. -/
theorem clip_within_bbox_witness :
    (clipFeature ⟨0, 0, 1, 1⟩ ⟨Set.univ, [("k", "v")]⟩).geom ⊆ boxSet ⟨0, 0, 1, 1⟩ ∧
      ∃ f₀ ∈ [(⟨Set.univ, [("k", "v")]⟩ : SFeature)],
        (clipFeature ⟨0, 0, 1, 1⟩ ⟨Set.univ, [("k", "v")]⟩).attrs = f₀.attrs ∧
        (clipFeature ⟨0, 0, 1, 1⟩ ⟨Set.univ, [("k", "v")]⟩).geom = f₀.geom ∩ boxSet ⟨0, 0, 1, 1⟩ :=
  clip_within_bbox ⟨0, 0, 1, 1⟩ [⟨Set.univ, [("k", "v")]⟩]
    ([⟨Set.univ, [("k", "v")]⟩].map (clipFeature ⟨0, 0, 1, 1⟩))
    ⟨List.Sublist.refl _, fun f hf _ => hf⟩
    (clipFeature ⟨0, 0, 1, 1⟩ ⟨Set.univ, [("k", "v")]⟩) (by simp)

/-- Claim C8: every non-empty query string contains the `bbox_str`
substring, which is exactly the four bounds of the box, comma separated, in
the documented order south, west, north, east. -/
theorem query_contains_bbox (fmt : ℚ → String) (b : BBox) (ft : String)
    (h : _get_overpass_query fmt b ft ≠ "") :
    ∃ pre post, _get_overpass_query fmt b ft = pre ++ bbox_str fmt b ++ post := by
  by_cases h1 : ft = "roads"
  · exact ⟨"[out:json];(way[\"highway\"](", "););out geom;",
      by simp [_get_overpass_query, h1]⟩
  by_cases h2 : ft = "buildings"
  · exact ⟨"[out:json];(way[\"building\"](", "););out geom;",
      by simp [_get_overpass_query, h1, h2]⟩
  by_cases h3 : ft = "forests"
  · exact ⟨"[out:json];(way[\"landuse\"=\"forest\"](" ++ bbox_str fmt b ++
        ");way[\"natural\"=\"wood\"](", "););out geom;",
      by simp [_get_overpass_query, h1, h2, h3]⟩
  by_cases h4 : ft = "water"
  · exact ⟨"[out:json];(way[\"natural\"=\"water\"](" ++ bbox_str fmt b ++
        ");way[\"waterway\"](" ++ bbox_str fmt b ++
        ");relation[\"natural\"=\"water\"](" ++ bbox_str fmt b ++
        ");relation[\"waterway\"](", "););out geom;",
      by simp [_get_overpass_query, h1, h2, h3, h4]⟩
  by_cases h5 : ft = "rivers"
  · exact ⟨"[out:json];(way[\"waterway\"=\"river\"](", "););out geom;",
      by simp [_get_overpass_query, h1, h2, h3, h4, h5]⟩
  by_cases h6 : ft = "lakes"
  · exact ⟨"[out:json];(way[\"natural\"=\"water\"](" ++ bbox_str fmt b ++
        ");relation[\"natural\"=\"water\"](", "););out geom;",
      by simp [_get_overpass_query, h1, h2, h3, h4, h5, h6]⟩
  by_cases h7 : ft = "channels"
  · exact ⟨"[out:json];(way[\"waterway\"=\"canal\"](" ++ bbox_str fmt b ++
        ");way[\"waterway\"=\"ditch\"](" ++ bbox_str fmt b ++
        ");way[\"waterway\"=\"stream\"](", "););out geom;",
      by simp [_get_overpass_query, h1, h2, h3, h4, h5, h6, h7]⟩
  exact absurd (by simp [_get_overpass_query, h1, h2, h3, h4, h5, h6, h7]) h

/-- Witness for C8 at the roads category. -/
theorem query_contains_bbox_witness :
    ∃ pre post, _get_overpass_query (fun _ => "1") ⟨0, 0, 1, 1⟩ "roads" =
      pre ++ bbox_str (fun _ => "1") ⟨0, 0, 1, 1⟩ ++ post :=
  query_contains_bbox (fun _ => "1") ⟨0, 0, 1, 1⟩ "roads"
    (roads_query_ne_empty (fun _ => "1") ⟨0, 0, 1, 1⟩)

/-- Claim C10: only elements of type `way` can produce features — any
element of another type (in particular `relation`) is discarded by the
converter — even though the `water` and `lakes` queries explicitly request
relations (the literal `relation` occurs in both query strings). -/
theorem only_ways_produce_features :
    (∀ (gt t : String) (e : RawElement), e.type? = some t → t ≠ "way" →
      processElement gt e = Except.ok none) ∧
    (∀ (fmt : ℚ → String) (b : BBox), ∃ pre post,
      _get_overpass_query fmt b "water" = pre ++ "relation" ++ post) ∧
    (∀ (fmt : ℚ → String) (b : BBox), ∃ pre post,
      _get_overpass_query fmt b "lakes" = pre ++ "relation" ++ post) := by
  refine ⟨?_, ?_, ?_⟩
  · intro gt t e ht hne
    simp [processElement, ht, if_neg hne]
  · intro fmt b
    refine ⟨"[out:json];(way[\"natural\"=\"water\"](" ++ bbox_str fmt b ++
        ");way[\"waterway\"](" ++ bbox_str fmt b ++ ");",
      "[\"natural\"=\"water\"](" ++ bbox_str fmt b ++
        ");relation[\"waterway\"](" ++ bbox_str fmt b ++ "););out geom;", ?_⟩
    have hq : _get_overpass_query fmt b "water" =
        "[out:json];(way[\"natural\"=\"water\"](" ++ bbox_str fmt b ++
          ");way[\"waterway\"](" ++ bbox_str fmt b ++
          ");relation[\"natural\"=\"water\"](" ++ bbox_str fmt b ++
          ");relation[\"waterway\"](" ++ bbox_str fmt b ++ "););out geom;" := by
      simp [_get_overpass_query]
    have hC : (");relation[\"natural\"=\"water\"](" : String) =
        ");" ++ "relation" ++ "[\"natural\"=\"water\"](" := by decide
    rw [hq, hC]
    simp only [String.append_assoc]
  · intro fmt b
    refine ⟨"[out:json];(way[\"natural\"=\"water\"](" ++ bbox_str fmt b ++ ");",
      "[\"natural\"=\"water\"](" ++ bbox_str fmt b ++ "););out geom;", ?_⟩
    have hq : _get_overpass_query fmt b "lakes" =
        "[out:json];(way[\"natural\"=\"water\"](" ++ bbox_str fmt b ++
          ");relation[\"natural\"=\"water\"](" ++ bbox_str fmt b ++ "););out geom;" := by
      simp [_get_overpass_query]
    have hC : (");relation[\"natural\"=\"water\"](" : String) =
        ");" ++ "relation" ++ "[\"natural\"=\"water\"](" := by decide
    rw [hq, hC]
    simp only [String.append_assoc]

/-- Witness for C10: a relation element with a full geometry still yields no
feature. -/
theorem only_ways_produce_features_witness :
    processElement "line"
      { type? := some "relation",
        geometry? := some [{ lon? := some 0, lat? := some 0 }, { lon? := some 1, lat? := some 1 }],
        tags? := some [("waterway", "river")] } = Except.ok none :=
  only_ways_produce_features.1 "line" "relation"
    { type? := some "relation",
      geometry? := some [{ lon? := some 0, lat? := some 0 }, { lon? := some 1, lat? := some 1 }],
      tags? := some [("waterway", "river")] } rfl (by decide)

/-- Every operation emitted by the layer loop is a plot call. -/
theorem plotOps_only_plot (gdfs : String → List Feature) :
    ∀ op ∈ plotOps gdfs, ∃ s, op = RenderOp.plot s := by
  intro op hop
  simp only [plotOps, List.mem_flatMap] at hop
  obtain ⟨ft, _, hop⟩ := hop
  by_cases hr : ft = "roads"
  · cases he : (gdfs ft).isEmpty with
    | true => simp [he] at hop
    | false =>
      simp only [he, Bool.false_eq_true, if_false, if_pos hr] at hop
      simp only [plotRoadOps] at hop
      cases ha : (gdfs ft).any (fun f => (f.tags.lookup "highway").isSome) with
      | true =>
        simp only [ha, if_true] at hop
        obtain ⟨rt, _, hrt⟩ := List.mem_map.mp hop
        exact ⟨rt ++ " road", hrt.symm⟩
      | false =>
        simp only [ha, Bool.false_eq_true, if_false, List.mem_singleton] at hop
        exact ⟨"Roads", hop⟩
  · cases he : (gdfs ft).isEmpty with
    | true => simp [he] at hop
    | false =>
      simp only [he, Bool.false_eq_true, if_false, if_neg hr, List.mem_singleton] at hop
      exact ⟨ft, hop⟩

/-- Claim C9 (amended): the renderer never sets the visible plot extent —
no x-limit or y-limit call appears anywhere in the trace of `generate_map`,
for any input collections and any bounding box; the visible extent is left
to autoscaling and to the tight bounding applied when saving. -/
theorem generate_map_never_sets_extent (b : BBox) (gdfs : String → List Feature) :
    setsExtentToBBox b (generate_map_ops gdfs) = false := by
  rw [setsExtentToBBox, List.any_eq_false]
  intro op hop
  simp only [generate_map_ops, List.mem_cons, List.mem_append] at hop
  rcases hop with (rfl | h) | h
  · simp
  · obtain ⟨s, rfl⟩ := plotOps_only_plot gdfs op h
    simp
  · simp only [List.mem_cons, List.not_mem_nil, or_false] at h
    rcases h with rfl | rfl | rfl | rfl | rfl <;> simp

/-- Counterexample to claim C9: at a concrete run (all categories empty,
unit box) the trace of `generate_map` contains no call setting the plot
extent to the bounding box. -/
theorem generate_map_extent_counterexample :
    setsExtentToBBox ⟨0, 0, 1, 1⟩ (generate_map_ops (fun _ => [])) = false := rfl

end OSM
